import Mathlib

/-!
Shallow embedding of the execution orchestration layer of the n8n
Claude Code community node, translated from
src/nodes/ClaudeCode/ClaudeCode.node.ts.

The embedding covers: the plan-mode tool-list and permission-mode
preparation inside ClaudeCode.execute (lines 501-615), the project path
validation routine ClaudeCode.validateProjectPath (lines 305-388), the
streaming session loop with its mid-stream working-directory error check
and its thrown-error fallback retry (lines 617-963), the response
normalization and degenerate-output detection (lines 689-880), and the
per-item batch loop with continue-on-failure isolation (lines 390-394 and
964-1008).

JavaScript strings are modelled as Lean String, JS arrays as List, absent
or undefined fields as Option, thrown errors as explicit error branches.
Filesystem access is modelled as an explicit FileSystem record of pure
probe functions. The external agent is modelled as an oracle describing
the event stream each issued request would produce.
-/

namespace ClaudeCodeNode

/-- Prefix test on character lists: true when the first list is an initial
segment of the second. Building block for the JS includes check. -/
def beginsWith : List Char → List Char → Bool
  | [], _ => true
  | _ :: _, [] => false
  | p :: ps, c :: cs => p == c && beginsWith ps cs

/-- Substring occurrence test on character lists: true when the pattern
occurs contiguously somewhere in the list. -/
def hasSubList (pat : List Char) : List Char → Bool
  | [] => pat.isEmpty
  | c :: cs => beginsWith pat (c :: cs) || hasSubList pat cs

/-- Model of the JS String.prototype.includes test used by the error
classification heuristics. -/
def containsSub (s pat : String) : Bool :=
  hasSubList pat.toList s.toList

/-- The whitespace characters relevant to the trimmed option strings of
this node. -/
def isWhiteChar (c : Char) : Bool :=
  c == ' ' || c == '\t' || c == '\n' || c == '\r'

/-- Model of the JS String.prototype.trim call: strip leading and
trailing whitespace. -/
def jsTrim (s : String) : String :=
  String.mk (((s.data.dropWhile isWhiteChar).reverse.dropWhile isWhiteChar).reverse)

/-- ASCII lowering of one character, as toLowerCase acts on the ASCII
error text scanned by the classification heuristics. -/
def lowerChar (c : Char) : Char :=
  if 65 <= c.toNat && c.toNat <= 90 then Char.ofNat (c.toNat + 32) else c

/-- Model of the JS String.prototype.toLowerCase call on ASCII text. -/
def jsToLower (s : String) : String :=
  String.mk (s.data.map lowerChar)

/-- One content part of an assistant message: either a text block or a
tool invocation. For tool invocations only the name and the optional
plan field of the structured input are relevant to the orchestration
layer, so only those are retained. -/
inductive ContentPart where
  | text (t : String)
  | toolUse (name : String) (planInput : Option String)
deriving DecidableEq

/-- Model of an SDKMessage streamed by the agent. The type field carries
the discriminator string of the source; subtype, content, error and
result model the optional fields the orchestration layer reads. An error
payload is modelled by the text that JSON.stringify would render. -/
structure SDKMessage where
  type : String
  subtype : Option String := none
  content : List ContentPart := []
  error : Option String := none
  result : Option String := none
deriving DecidableEq

/-- The read-only tool names of the plan-mode restriction
(ClaudeCode.node.ts lines 577-586). -/
def readOnlyTools : List String :=
  ["Read", "Grep", "Glob", "LS", "Task", "WebFetch", "WebSearch", "TodoWrite"]

/-- The filter predicate applied to the requested tools in plan mode
(lines 587-590): keep read-only tools and either spelling of the
exit-plan tool. -/
def planToolPred (tool : String) : Bool :=
  readOnlyTools.contains tool || tool == "exit_plan_mode" || tool == "ExitPlanMode"

/-- Plan-mode effective tool computation (lines 587-597): filter the
requested tools, then push the exit-plan tool when the filtered list does
not already contain it. -/
def planModeTools (allowedTools : List String) : List String :=
  let filtered := allowedTools.filter planToolPred
  if filtered.contains "exit_plan_mode" then filtered
  else filtered ++ ["exit_plan_mode"]

/-- The mutating tools named by the plan-mode safety property. -/
def mutatingTools : List String := ["Write", "Edit", "MultiEdit", "Bash"]

/-- The node parameters of one input item that feed environment
preparation, with the additionalOptions collection flattened
(lines 398-416). -/
structure WorkItem where
  operation : String
  prompt : String
  model : String := "sonnet"
  maxTurns : Nat := 10
  timeout : Nat := 300
  projectPath : String := ""
  outputFormat : String := "structured"
  enablePlanMode : Bool := false
  autoExecuteAfterPlan : Bool := false
  allowedTools : List String := []
  systemPrompt : String := ""
  requirePermissions : Bool := false
deriving DecidableEq

/-- Plan-mode activation (line 431): operation plan, or operation query
with the enablePlanMode option. -/
def isPlanModeOf (w : WorkItem) : Bool :=
  w.operation == "plan" || (w.operation == "query" && w.enablePlanMode)

/-- The planning-instructions system prompt fragment injected in plan
mode (lines 436-447, after the template trim). -/
def planningPrompt : String :=
  "You are in plan mode. This is a research and planning phase where you should:\n\n1. **Research thoroughly**: Use read-only tools (Read, Grep, Glob, LS, Task) to understand the codebase and requirements\n2. **Analyze the request**: Break down what needs to be accomplished\n3. **Create a detailed plan**: Present a structured plan of implementation steps\n4. **Use ExitPlanMode tool**: When your plan is complete, use the ExitPlanMode tool to present it\n\nIMPORTANT: In plan mode, you MUST NOT use tools that modify files or execute commands (Write, Edit, MultiEdit, Bash). Only use research and analysis tools.\n\nYour goal is to create a comprehensive plan before any implementation begins."

/-- System prompt composition (lines 434-450): in plan mode the planning
fragment is appended after the user prompt when one is present, otherwise
used alone; outside plan mode the user prompt passes through. -/
def composedSystemPrompt (w : WorkItem) : String :=
  if isPlanModeOf w then
    if w.systemPrompt == "" then planningPrompt
    else w.systemPrompt ++ "\n\n" ++ planningPrompt
  else w.systemPrompt

/-- The effective allowed tool list (lines 573-603): the plan-mode
computation when plan mode is active, the requested list unchanged
otherwise. -/
def effectiveTools (w : WorkItem) : List String :=
  if isPlanModeOf w then planModeTools w.allowedTools else w.allowedTools

/-- The options sub-record of the outbound query (lines 502-515). The
continue flag of the source is named continueFlag here. -/
structure QueryOpts where
  maxTurns : Nat
  permissionMode : String
  model : String
  systemPrompt : Option String := none
  allowedTools : Option (List String) := none
  continueFlag : Bool := false
deriving DecidableEq

/-- The outbound agent request (lines 502-515): prompt, optional working
directory override, and the options sub-record. -/
structure QueryOptions where
  prompt : String
  cwd : Option String := none
  options : QueryOpts
deriving DecidableEq

/-- Construction of the outbound request from the item parameters and an
already validated working directory override (lines 517-615): permission
mode from the requirePermissions option, system prompt set only when the
composed prompt is non-empty, allowedTools set only when the effective
list is non-empty, continue flag for the continue operation. -/
def buildQueryOptions (w : WorkItem) (cwd : Option String) : QueryOptions :=
  let sys := composedSystemPrompt w
  let eff := effectiveTools w
  { prompt := w.prompt
    cwd := cwd
    options :=
      { maxTurns := w.maxTurns
        permissionMode := if w.requirePermissions then "default" else "bypassPermissions"
        model := w.model
        systemPrompt := if sys == "" then none else some sys
        allowedTools := if eff.length > 0 then some eff else none
        continueFlag := w.operation == "continue" } }

/-- Filesystem node kind reported by a stat probe. -/
inductive FSNode where
  | file
  | dir
deriving DecidableEq

/-- Pure model of the filesystem probes used by validateProjectPath:
path resolution, stat, the combined read-write access check on the
directory, and the readability check on candidate configuration files. -/
structure FileSystem where
  resolve : String → String
  stat : String → Option FSNode
  readWritable : String → Bool
  readableFile : String → Bool

/-- Result record of validateProjectPath (ClaudeCode.node.ts lines
13-23), with the configurationFound object flattened into three
booleans. -/
structure ProjectPathValidationResult where
  isValid : Bool
  resolvedPath : Option String := none
  error : Option String := none
  warnings : List String := []
  claudeSettings : Bool := false
  claudeLocalSettings : Bool := false
  mcpConfig : Bool := false
deriving DecidableEq

/-- Translation of ClaudeCode.validateProjectPath (lines 305-388):
resolve the path, fail when it does not exist or is not a directory or
lacks read-write access, otherwise probe the three configuration files
and compute the missing-configuration warnings. -/
def validateProjectPath (fs : FileSystem) (projectPath : String) :
    ProjectPathValidationResult :=
  let resolved := fs.resolve projectPath
  match fs.stat resolved with
  | none =>
      { isValid := false
        resolvedPath := some resolved
        error := some ("Directory does not exist: " ++ resolved) }
  | some FSNode.file =>
      { isValid := false
        resolvedPath := some resolved
        error := some ("Path exists but is not a directory: " ++ resolved) }
  | some FSNode.dir =>
      if fs.readWritable resolved then
        let cs := fs.readableFile (resolved ++ "/.claude/settings.json")
        let cls := fs.readableFile (resolved ++ "/.claude/settings.local.json")
        let mcp := fs.readableFile (resolved ++ "/.mcp.json")
        let warnings :=
          if !cs && !cls && !mcp then
            ["No Claude configuration files found (.claude/settings.json, .claude/settings.local.json, .mcp.json). Claude Code may not work as expected."]
          else if !cs && !cls then
            ["No Claude settings files found. Consider creating .claude/settings.json or .claude/settings.local.json for proper configuration."]
          else []
        { isValid := true
          resolvedPath := some resolved
          warnings := warnings
          claudeSettings := cs
          claudeLocalSettings := cls
          mcpConfig := mcp }
      else
        { isValid := false
          resolvedPath := some resolved
          error := some ("Insufficient permissions for directory: " ++ resolved) }

/-- The environment preparation path of execute (lines 424-615), assuming
the CLI availability checks passed: reject a blank prompt, skip path
validation for a blank projectPath, otherwise validate and either reject
the item or build the outbound request with the resolved directory. -/
def prepare (fs : FileSystem) (w : WorkItem) : Except String QueryOptions :=
  if jsTrim w.prompt == "" then
    Except.error "Prompt is required and cannot be empty"
  else if jsTrim w.projectPath == "" then
    Except.ok (buildQueryOptions w none)
  else
    let v := validateProjectPath fs (jsTrim w.projectPath)
    if v.isValid then Except.ok (buildQueryOptions w v.resolvedPath)
    else Except.error ("Invalid project path: " ++ v.error.getD "")

/-- JS truthiness of an optional error payload: present and, for string
payloads, non-empty. -/
def jsTruthyStr : Option String → Bool
  | some s => !s.data.isEmpty
  | none => false

/-- The mid-stream break condition of the first-attempt loop (lines
657-672): a result-type message carrying a truthy error payload while a
working directory override is set, whose stringified lowercased payload
contains one of the three working-directory substrings. -/
def midStreamBreak (hasCwd : Bool) (m : SDKMessage) : Bool :=
  m.type == "result" && jsTruthyStr m.error && hasCwd &&
    (containsSub (jsToLower (m.error.getD "")) "working directory" ||
     containsSub (jsToLower (m.error.getD "")) "cwd" ||
     containsSub (jsToLower (m.error.getD "")) "chdir")

/-- Events collected by the first-attempt loop (lines 638-673): each
event is pushed as it arrives; a matching result error stops consumption
right after the push, discarding the remaining upstream events. -/
def consumeFirst (hasCwd : Bool) : List SDKMessage → List SDKMessage
  | [] => []
  | m :: rest =>
      if midStreamBreak hasCwd m then [m]
      else m :: consumeFirst hasCwd rest

/-- Whether the first-attempt loop breaks somewhere in the given event
prefix. -/
def firstBreaks (hasCwd : Bool) (evs : List SDKMessage) : Bool :=
  evs.any (midStreamBreak hasCwd)

/-- The thrown-error working-directory classification (lines 885-890):
case-insensitive containment of one of the four substrings. -/
def isWorkingDirErrorMsg (msg : String) : Bool :=
  containsSub (jsToLower msg) "working directory" ||
    containsSub (jsToLower msg) "cwd" ||
    containsSub (jsToLower msg) "chdir" ||
    containsSub (jsToLower msg) "no such file or directory"

/-- Oracle for one issued agent request: the stream either yields its
events and completes, or yields a prefix of events and then raises the
given error message. -/
inductive StreamBehavior where
  | yields (events : List SDKMessage)
  | throws (events : List SDKMessage) (errMsg : String)
deriving DecidableEq

/-- Oracle for one work item: the behavior of the first-attempt stream
and the behavior the stream would have for a fallback request. -/
structure ItemBehavior where
  first : StreamBehavior
  fallback : StreamBehavior
deriving DecidableEq

/-- How one item leaves the try-catch region of lines 633-952:
normalized means the first-attempt loop finished (normally or through the
mid-stream break) and control reaches the response formatting with the
collected messages; fallbackSilent means the fallback attempt succeeded,
so querySucceeded is set but control leaves the catch block past the
formatting code with the fallback messages unused; raised means an error
propagates to the outer per-item handler. -/
inductive DriverOutcome where
  | normalized (messages : List SDKMessage)
  | fallbackSilent (messages : List SDKMessage)
  | raised (errMsg : String)
deriving DecidableEq

/-- Trace of one item: the working-directory override of every agent
request actually issued, in order, and the outcome. -/
structure DriverTrace where
  attemptCwds : List (Option String)
  outcome : DriverOutcome
deriving DecidableEq

/-- Translation of the session driving region of execute (lines 617-963)
for one item. The first request is issued with the given override. When
the first stream completes, or the mid-stream check breaks out of the
loop, querySucceeded is set and the collected messages reach the
formatting code. When the first stream raises before a break, the
message is classified; a working-directory match with an override present
issues exactly one fallback request with the override removed (lines
906-910), whose failure re-raises the original error (line 947) and whose
success leaves the catch block without reaching the formatting code. Any
other error is re-raised directly (line 950). -/
def runDriver (cwd : Option String) (beh : ItemBehavior) : DriverTrace :=
  let hasCwd := cwd.isSome
  match beh.first with
  | StreamBehavior.yields evs =>
      { attemptCwds := [cwd]
        outcome := DriverOutcome.normalized (consumeFirst hasCwd evs) }
  | StreamBehavior.throws evs errMsg =>
      if firstBreaks hasCwd evs then
        { attemptCwds := [cwd]
          outcome := DriverOutcome.normalized (consumeFirst hasCwd evs) }
      else if isWorkingDirErrorMsg errMsg && hasCwd then
        match beh.fallback with
        | StreamBehavior.yields fevs =>
            { attemptCwds := [cwd, none]
              outcome := DriverOutcome.fallbackSilent fevs }
        | StreamBehavior.throws _ _ =>
            { attemptCwds := [cwd, none]
              outcome := DriverOutcome.raised errMsg }
      else
        { attemptCwds := [cwd]
          outcome := DriverOutcome.raised errMsg }

/-- Assistant content detection (lines 741-745): some assistant message
has a text part whose trimmed text is truthy. -/
def hasAssistantContent (messages : List SDKMessage) : Bool :=
  messages.any (fun m =>
    m.type == "assistant" &&
      m.content.any (fun c =>
        match c with
        | ContentPart.text t => !(jsTrim t).data.isEmpty
        | ContentPart.toolUse _ _ => false))

/-- First result-type message of the collected sequence (line 739). -/
def findResult (messages : List SDKMessage) : Option SDKMessage :=
  messages.find? (fun m => m.type == "result")

/-- JS chaining of two optional strings with the or operator: the first
when present and non-empty, otherwise the second. -/
def jsOrStr (a b : Option String) : Option String :=
  match a with
  | some s => if s.data.isEmpty then b else some s
  | none => b

/-- The result text of the text output format (line 793): result field,
else error field, else the empty string. -/
def resultText (rm : Option SDKMessage) : String :=
  (jsOrStr (rm.bind SDKMessage.result) (rm.bind SDKMessage.error)).getD ""

/-- Success flag (lines 794 and 862): the result message exists and its
subtype is the success tag. -/
def resultSuccess (rm : Option SDKMessage) : Bool :=
  match rm with
  | some m => m.subtype == some "success"
  | none => false

/-- Tool-use message detection of the structured format (lines 813-816):
an assistant message whose first content part is a tool invocation. -/
def isToolUseMsg (m : SDKMessage) : Bool :=
  m.type == "assistant" &&
    (match m.content.head? with
     | some (ContentPart.toolUse _ _) => true
     | _ => false)

/-- Whether the first content part of a message is an ExitPlanMode
invocation (lines 823-826). -/
def isExitPlanUse (m : SDKMessage) : Bool :=
  match m.content.head? with
  | some (ContentPart.toolUse n _) => n == "ExitPlanMode"
  | _ => false

/-- Extracted plan content (lines 823-829): the plan input of the first
ExitPlanMode tool use among the tool-use messages, when present. -/
def planContentOf (messages : List SDKMessage) : Option String :=
  match (messages.filter isToolUseMsg).find? isExitPlanUse with
  | some m =>
      match m.content.head? with
      | some (ContentPart.toolUse _ inp) => inp
      | _ => none
  | none => none

/-- The structured output record (lines 831-879), restricted to the
fields with orchestration-level content. -/
structure StructuredJson where
  messageCount : Nat
  userMessageCount : Nat
  assistantMessageCount : Nat
  toolUseCount : Nat
  hasResult : Bool
  isPlanMode : Bool
  hasPlan : Bool
  autoExecuteAfterPlan : Bool
  hasAssistantContent : Bool
  plan : Option String
  planApproved : Bool
  readyForExecution : Bool
  result : Option String
  success : Bool
deriving DecidableEq

/-- Construction of the structured output record from the collected
messages (lines 809-879). -/
def mkStructured (pm ae : Bool) (messages : List SDKMessage) : StructuredJson :=
  let rm := findResult messages
  let planContent := planContentOf messages
  { messageCount := messages.length
    userMessageCount := (messages.filter (fun m => m.type == "user")).length
    assistantMessageCount := (messages.filter (fun m => m.type == "assistant")).length
    toolUseCount := (messages.filter isToolUseMsg).length
    hasResult := rm.isSome
    isPlanMode := pm
    hasPlan := planContent.isSome
    autoExecuteAfterPlan := ae
    hasAssistantContent := hasAssistantContent messages
    plan := planContent
    planApproved := false
    readyForExecution := pm && ae && planContent.isSome
    result := jsOrStr (rm.bind SDKMessage.result) (rm.bind SDKMessage.error)
    success := resultSuccess rm }

/-- One record pushed to the batch output: the two diagnostic shapes of
the degenerate-output checks, the three format shapes, and the error
record pushed under continue-on-failure. -/
inductive PushJson where
  | emptyWarning (warning : String) (success : Bool)
  | noMeaningful (warning : String) (messageCount : Nat) (success : Bool)
  | textOut (result : String) (success : Bool)
  | messagesOut (messageCount : Nat)
  | structuredOut (payload : StructuredJson)
  | errorOut (errMsg : String)
deriving DecidableEq

/-- The warning text of the empty-stream diagnostic (lines 692-693). -/
def emptyWarningMsg : String :=
  "Claude Code SDK returned no messages. This may indicate authentication issues, network problems, or API limitations."

/-- The warning text of the no-meaningful-response diagnostic
(line 749). -/
def noMeaningfulMsg (n : Nat) : String :=
  "Claude Code executed but produced no meaningful response. Received " ++
    toString n ++ " messages but no assistant content or result."

/-- The response formatting region of execute (lines 689-880) as a
function of the collected messages: the empty-stream diagnostic, the
no-meaningful-response diagnostic, then the three output formats. A
format string outside the closed options set pushes nothing. -/
def normalizePush (outputFormat : String) (pm ae : Bool)
    (messages : List SDKMessage) : Option PushJson :=
  if messages.length == 0 then
    some (PushJson.emptyWarning emptyWarningMsg false)
  else
    let rm := findResult messages
    let hac := hasAssistantContent messages
    if !hac && rm.isNone then
      some (PushJson.noMeaningful (noMeaningfulMsg messages.length) messages.length false)
    else if outputFormat == "text" then
      some (PushJson.textOut (resultText rm) (resultSuccess rm))
    else if outputFormat == "messages" then
      some (PushJson.messagesOut messages.length)
    else if outputFormat == "structured" then
      some (PushJson.structuredOut (mkStructured pm ae messages))
    else none

/-- One batch item after environment preparation: the output format and
plan flags that drive normalization, the working-directory override of
the prepared request, and the stream oracle. -/
structure ItemSpec where
  outputFormat : String
  planMode : Bool
  autoExecuteAfterPlan : Bool
  cwd : Option String
  beh : ItemBehavior
deriving DecidableEq

/-- The records one item contributes to the batch output (lines 617-1005):
a normalized outcome contributes whatever the formatting region pushes; a
silent fallback success contributes nothing because control resumes past
the formatting code; a raised error contributes an error record under
continue-on-failure and aborts the batch otherwise. -/
def itemPushes (continueOnFail : Bool) (it : ItemSpec) :
    Except String (List PushJson) :=
  match (runDriver it.cwd it.beh).outcome with
  | DriverOutcome.normalized msgs =>
      Except.ok (normalizePush it.outputFormat it.planMode it.autoExecuteAfterPlan msgs).toList
  | DriverOutcome.fallbackSilent _ => Except.ok []
  | DriverOutcome.raised e =>
      if continueOnFail then Except.ok [PushJson.errorOut e]
      else Except.error ("Claude Code execution failed: " ++ e)

/-- The batch loop (lines 390-394 and 1006-1008): items processed in
order, each appending its pushes to the output; a propagated error aborts
the whole batch. -/
def runBatch (continueOnFail : Bool) : List ItemSpec → Except String (List PushJson)
  | [] => Except.ok []
  | it :: rest =>
      match itemPushes continueOnFail it with
      | Except.error e => Except.error e
      | Except.ok ps =>
          match runBatch continueOnFail rest with
          | Except.error e => Except.error e
          | Except.ok rs => Except.ok (ps ++ rs)

/-! Concrete test vectors used by the closed theorems below. -/

/-- A plan item that requests two mutating tools and one read-only tool. -/
def c1Item : WorkItem :=
  { operation := "plan", prompt := "task", allowedTools := ["Write", "Bash", "Read"] }

/-- A plan item whose requested list repeats the exit-plan tool. -/
def c2DupItem : WorkItem :=
  { operation := "plan", prompt := "task",
    allowedTools := ["exit_plan_mode", "exit_plan_mode"] }

/-- A plan item whose requested list names the exit-plan tool once. -/
def c2OnceItem : WorkItem :=
  { operation := "plan", prompt := "task",
    allowedTools := ["Read", "exit_plan_mode", "Write"] }

/-- A plan item with the default requirePermissions value false. -/
def c7Item : WorkItem := { operation := "plan", prompt := "task" }

/-- A plain query item with an empty requested tool list. -/
def c10Item : WorkItem := { operation := "query", prompt := "task" }

/-- A filesystem on which no path exists. -/
def emptyFS : FileSystem :=
  { resolve := fun s => s
    stat := fun _ => none
    readWritable := fun _ => false
    readableFile := fun _ => false }

/-- A query item requesting a nonexistent working directory. -/
def c8Item : WorkItem :=
  { operation := "query", prompt := "hello", projectPath := "/nonexistent/xyz" }

/-- A system-init event with no content. -/
def sysInitEvent : SDKMessage := { type := "system", subtype := some "init" }

/-- A result event carrying a working-directory-shaped error payload. -/
def wdErrResultEvent : SDKMessage :=
  { type := "result", error := some "Error: chdir ENOENT, working directory missing" }

/-- An assistant event arriving after the failing result event. -/
def lateAssistantEvent : SDKMessage :=
  { type := "assistant", content := [ContentPart.text "late text"] }

/-- A terminal success result event. -/
def successResultEvent : SDKMessage :=
  { type := "result", subtype := some "success", result := some "done" }

/-- Oracle for C3: the first stream yields an init event, then a result
event with a working-directory error payload, then a further event. -/
def c3Behavior : ItemBehavior :=
  { first := StreamBehavior.yields [sysInitEvent, wdErrResultEvent, lateAssistantEvent]
    fallback := StreamBehavior.yields [] }

/-- Oracle for C4: the first stream raises a working-directory-shaped
error before yielding anything; the fallback completes. -/
def c4Behavior : ItemBehavior :=
  { first := StreamBehavior.throws [] "ENOENT: no such file or directory, chdir /bad/path"
    fallback := StreamBehavior.yields [] }

/-- Batch item for C6: the first attempt raises a working-directory
error and the fallback attempt streams to a successful terminal result. -/
def c6Item : ItemSpec :=
  { outputFormat := "structured", planMode := false, autoExecuteAfterPlan := false
    cwd := some "/data/project"
    beh := { first := StreamBehavior.throws []
               "ENOENT: no such file or directory, chdir /data/project"
             fallback := StreamBehavior.yields [sysInitEvent, successResultEvent] } }

/-! Helper lemmas. -/

theorem beginsWith_append (pat l m : List Char) (h : beginsWith pat l = true) :
    beginsWith pat (l ++ m) = true := by
  induction pat generalizing l with
  | nil => rfl
  | cons p ps ih =>
    cases l with
    | nil => simp [beginsWith] at h
    | cons c cs =>
      simp only [beginsWith, Bool.and_eq_true] at h
      simp only [List.cons_append, beginsWith, Bool.and_eq_true]
      exact ⟨h.1, ih cs h.2⟩

theorem hasSubList_nil_pat (m : List Char) : hasSubList [] m = true := by
  cases m with
  | nil => rfl
  | cons c cs => simp [hasSubList, beginsWith]

theorem hasSubList_append (pat l m : List Char) (h : hasSubList pat l = true) :
    hasSubList pat (l ++ m) = true := by
  induction l with
  | nil =>
    have hp : pat = [] := by
      simpa [hasSubList, List.isEmpty_iff] using h
    subst hp
    exact hasSubList_nil_pat m
  | cons c cs ih =>
    simp only [hasSubList, Bool.or_eq_true] at h
    simp only [List.cons_append, hasSubList, Bool.or_eq_true]
    rcases h with h | h
    · exact Or.inl (beginsWith_append pat (c :: cs) m h)
    · exact Or.inr (ih h)

theorem containsSub_append_left (s t pat : String)
    (h : containsSub s pat = true) : containsSub (s ++ t) pat = true := by
  unfold containsSub at h ⊢
  have hd : (s ++ t).toList = s.toList ++ t.toList := by
    simp [String.toList]
  rw [hd]
  exact hasSubList_append _ _ _ h

theorem ne_empty_of_append_left (a b : String) (h : a ≠ "") : a ++ b ≠ "" := by
  intro hc
  apply h
  have hd : a.data ++ b.data = [] := by
    have := congrArg String.data hc
    simpa using this
  have ha : a.data = [] := (List.append_eq_nil.mp hd).1
  cases a with
  | mk d =>
    simp only at ha
    subst ha
    rfl

theorem noMeaningfulMsg_ne_empty (n : Nat) : noMeaningfulMsg n ≠ "" := by
  unfold noMeaningfulMsg
  rw [show "Claude Code executed but produced no meaningful response. Received " ++
        toString n ++ " messages but no assistant content or result."
      = ("Claude Code executed but produced no meaningful response. Received " ++
        toString n) ++ " messages but no assistant content or result." from rfl]
  apply ne_empty_of_append_left
  apply ne_empty_of_append_left
  decide

theorem mem_planModeTools {t : String} {T : List String}
    (h : t ∈ planModeTools T) : planToolPred t = true ∨ t = "exit_plan_mode" := by
  simp only [planModeTools] at h
  by_cases hc : (T.filter planToolPred).contains "exit_plan_mode" = true
  · rw [if_pos hc] at h
    exact Or.inl (List.mem_filter.mp h).2
  · rw [if_neg hc] at h
    rcases List.mem_append.mp h with h1 | h2
    · exact Or.inl (List.mem_filter.mp h1).2
    · simp only [List.mem_singleton] at h2
      exact Or.inr h2

theorem count_filter_exit (T : List String) :
    (T.filter planToolPred).count "exit_plan_mode" = T.count "exit_plan_mode" := by
  induction T with
  | nil => rfl
  | cons a T ih =>
    by_cases ha : planToolPred a = true
    · simp [List.filter_cons, ha, List.count_cons, ih]
    · have hne : (a == "exit_plan_mode") = false := by
        cases hb : a == "exit_plan_mode"
        · rfl
        · exfalso
          apply ha
          have hab : a = "exit_plan_mode" := by simpa using hb
          subst hab
          decide
      simp [List.filter_cons, ha, List.count_cons, ih, hne]

/-! Claim theorems. -/

/-- C1: for every requested tool list, whenever plan mode is active the
effective allowed-tool list of the outbound request never contains one of
the mutating tools Write, Edit, MultiEdit, Bash, even when the requested
list contains one. -/
theorem c1_plan_mode_excludes_mutating_tools (w : WorkItem) (cwd : Option String)
    (hpm : isPlanModeOf w = true) (t : String) (ht : t ∈ mutatingTools)
    (l : List String)
    (hl : (buildQueryOptions w cwd).options.allowedTools = some l) : t ∉ l := by
  have heq : (buildQueryOptions w cwd).options.allowedTools
      = (if (effectiveTools w).length > 0 then some (effectiveTools w) else none) := rfl
  rw [heq] at hl
  have hl2 : l = effectiveTools w := by
    by_cases hp : (effectiveTools w).length > 0
    · rw [if_pos hp] at hl
      exact (Option.some.inj hl).symm
    · rw [if_neg hp] at hl
      cases hl
  subst hl2
  intro hmem
  have hplan : t ∈ planModeTools w.allowedTools := by
    simpa [effectiveTools, hpm] using hmem
  have ht4 : t = "Write" ∨ t = "Edit" ∨ t = "MultiEdit" ∨ t = "Bash" := by
    simpa [mutatingTools] using ht
  rcases mem_planModeTools hplan with hp | he
  · rcases ht4 with rfl | rfl | rfl | rfl <;> exact absurd hp (by decide)
  · rcases ht4 with rfl | rfl | rfl | rfl <;> exact absurd he (by decide)

/-- C1 witness: the plan item requesting Write, Bash, Read gets the
effective list Read plus the exit-plan tool, and Write is not in it. -/
theorem c1_witness :
    isPlanModeOf c1Item = true ∧ "Write" ∈ mutatingTools ∧
    (buildQueryOptions c1Item none).options.allowedTools
      = some ["Read", "exit_plan_mode"] ∧
    "Write" ∉ (["Read", "exit_plan_mode"] : List String) :=
  ⟨by decide, by decide, by decide,
    c1_plan_mode_excludes_mutating_tools c1Item none (by decide) "Write" (by decide)
      ["Read", "exit_plan_mode"] (by decide)⟩

/-- C2 counterexample: a requested tool list that repeats the exit-plan
tool passes the plan-mode filter twice, so the effective list contains
the exit-plan tool twice, not exactly once. -/
theorem c2_counterexample :
    isPlanModeOf c2DupItem = true ∧
    (buildQueryOptions c2DupItem none).options.allowedTools
      = some ["exit_plan_mode", "exit_plan_mode"] ∧
    (["exit_plan_mode", "exit_plan_mode"] : List String).count "exit_plan_mode" = 2 :=
  ⟨by decide, by decide, by decide⟩

/-- C2 amended: whenever plan mode is active and the requested tool list
contains the exit-plan tool at most once, the allowedTools field of the
outbound request is present and its list contains the exit-plan tool
exactly once; in particular the list is non-empty. -/
theorem c2_exit_tool_unique (w : WorkItem) (cwd : Option String)
    (hpm : isPlanModeOf w = true)
    (hdup : w.allowedTools.count "exit_plan_mode" ≤ 1) :
    (buildQueryOptions w cwd).options.allowedTools
      = some (planModeTools w.allowedTools) ∧
    (planModeTools w.allowedTools).count "exit_plan_mode" = 1 ∧
    planModeTools w.allowedTools ≠ [] := by
  have hcount : (planModeTools w.allowedTools).count "exit_plan_mode" = 1 := by
    simp only [planModeTools]
    by_cases hc : (w.allowedTools.filter planToolPred).contains "exit_plan_mode" = true
    · rw [if_pos hc]
      have hmem : "exit_plan_mode" ∈ w.allowedTools.filter planToolPred := by
        simpa using hc
      have h1 : 1 ≤ (w.allowedTools.filter planToolPred).count "exit_plan_mode" :=
        List.one_le_count_iff.mpr hmem
      have h2 : (w.allowedTools.filter planToolPred).count "exit_plan_mode" ≤ 1 := by
        rw [count_filter_exit]
        exact hdup
      omega
    · rw [if_neg hc]
      have hnmem : "exit_plan_mode" ∉ w.allowedTools.filter planToolPred := by
        simpa using hc
      rw [List.count_append, List.count_eq_zero.mpr hnmem]
      decide
  have hmem : "exit_plan_mode" ∈ planModeTools w.allowedTools :=
    List.count_pos_iff.mp (by omega)
  have hne : planModeTools w.allowedTools ≠ [] := List.ne_nil_of_mem hmem
  have hlen : (planModeTools w.allowedTools).length > 0 := List.length_pos.mpr hne
  refine ⟨?_, hcount, hne⟩
  show (if (effectiveTools w).length > 0 then some (effectiveTools w) else none)
      = some (planModeTools w.allowedTools)
  have heff : effectiveTools w = planModeTools w.allowedTools := by
    simp [effectiveTools, hpm]
  rw [heff, if_pos hlen]

/-- C2 witness: a plan item naming the exit-plan tool once gets an
effective list with the exit-plan tool exactly once. -/
theorem c2_witness :
    isPlanModeOf c2OnceItem = true ∧
    c2OnceItem.allowedTools.count "exit_plan_mode" ≤ 1 ∧
    ((buildQueryOptions c2OnceItem none).options.allowedTools
        = some (planModeTools c2OnceItem.allowedTools) ∧
      (planModeTools c2OnceItem.allowedTools).count "exit_plan_mode" = 1 ∧
      planModeTools c2OnceItem.allowedTools ≠ []) :=
  ⟨by decide, by decide, c2_exit_tool_unique c2OnceItem none (by decide) (by decide)⟩

/-- C7 counterexample: a plan item with requirePermissions false gets
permission mode bypassPermissions, not the non-mutating default mode, so
plan operation does not force the default mode. -/
theorem c7_counterexample :
    c7Item.operation = "plan" ∧ c7Item.requirePermissions = false ∧
    (buildQueryOptions c7Item none).options.permissionMode = "bypassPermissions" ∧
    (buildQueryOptions c7Item none).options.permissionMode ≠ "default" :=
  ⟨rfl, rfl, rfl, by decide⟩

/-- C7 amended: for every plan work item the permission mode of the
outbound request is default exactly when requirePermissions is set and
bypassPermissions otherwise; plan mode has no influence on it. -/
theorem c7_permission_mode_follows_option (w : WorkItem) (cwd : Option String)
    (hop : w.operation = "plan") :
    (buildQueryOptions w cwd).options.permissionMode
      = (if w.requirePermissions then "default" else "bypassPermissions") ∧
    (buildQueryOptions w cwd).options.permissionMode
      = (buildQueryOptions
          { w with operation := "query", enablePlanMode := false } cwd).options.permissionMode :=
  ⟨rfl, rfl⟩

/-- C7 witness: the amended statement evaluated on the concrete plan
item. -/
theorem c7_witness :
    c7Item.operation = "plan" ∧
    ((buildQueryOptions c7Item none).options.permissionMode
        = (if c7Item.requirePermissions then "default" else "bypassPermissions") ∧
      (buildQueryOptions c7Item none).options.permissionMode
        = (buildQueryOptions
            { c7Item with operation := "query", enablePlanMode := false } none).options.permissionMode) :=
  ⟨rfl, c7_permission_mode_follows_option c7Item none rfl⟩

/-- C10: outside plan mode an empty requested tool list leaves the
allowedTools field of the outbound request unset, and in general the
field is set exactly when the effective tool list is non-empty. -/
theorem c10_allowed_tools_field (w : WorkItem) (cwd : Option String) :
    (isPlanModeOf w = false → w.allowedTools = [] →
      (buildQueryOptions w cwd).options.allowedTools = none) ∧
    ((buildQueryOptions w cwd).options.allowedTools
      = if effectiveTools w = [] then none else some (effectiveTools w)) := by
  constructor
  · intro hpm hempty
    show (if (effectiveTools w).length > 0 then some (effectiveTools w) else none) = none
    have heff : effectiveTools w = [] := by
      simp [effectiveTools, hpm, hempty]
    rw [heff]
    rfl
  · show (if (effectiveTools w).length > 0 then some (effectiveTools w) else none)
        = if effectiveTools w = [] then none else some (effectiveTools w)
    rcases heff : effectiveTools w with _ | ⟨a, T⟩
    · simp
    · simp

/-- C10 witness: the query item with no requested tools produces a
request with no allowedTools field. -/
theorem c10_witness :
    isPlanModeOf c10Item = false ∧ c10Item.allowedTools = [] ∧
    (buildQueryOptions c10Item none).options.allowedTools = none :=
  ⟨by decide, rfl, (c10_allowed_tools_field c10Item none).1 (by decide) rfl⟩

/-- C8: for every filesystem and every item whose non-blank requested
working directory resolves to a path the filesystem does not know, the
path validator reports isValid false with an error mentioning the
does-not-exist text, and preparation rejects the item with a validation
error instead of building an agent request. -/
theorem c8_nonexistent_path_rejected (fs : FileSystem) (w : WorkItem)
    (hprompt : (jsTrim w.prompt == "") = false)
    (hpath : (jsTrim w.projectPath == "") = false)
    (hstat : fs.stat (fs.resolve (jsTrim w.projectPath)) = none) :
    (validateProjectPath fs (jsTrim w.projectPath)).isValid = false ∧
    containsSub ((validateProjectPath fs (jsTrim w.projectPath)).error.getD "")
      "does not exist" = true ∧
    prepare fs w = Except.error
      ("Invalid project path: " ++
        ("Directory does not exist: " ++ fs.resolve (jsTrim w.projectPath))) := by
  have hval : validateProjectPath fs (jsTrim w.projectPath) =
      { isValid := false
        resolvedPath := some (fs.resolve (jsTrim w.projectPath))
        error := some ("Directory does not exist: " ++ fs.resolve (jsTrim w.projectPath)) } := by
    simp only [validateProjectPath]
    rw [hstat]
  refine ⟨by rw [hval], ?_, ?_⟩
  · rw [hval]
    exact containsSub_append_left _ _ _ (by decide)
  · unfold prepare
    have h1 : ¬ (jsTrim w.prompt == "") = true := by simp [hprompt]
    have h2 : ¬ (jsTrim w.projectPath == "") = true := by simp [hpath]
    rw [if_neg h1, if_neg h2]
    simp [hval]

/-- C8 witness: the nonexistent path rejected on the concrete empty
filesystem. -/
theorem c8_witness :
    (jsTrim c8Item.prompt == "") = false ∧
    (jsTrim c8Item.projectPath == "") = false ∧
    emptyFS.stat (emptyFS.resolve (jsTrim c8Item.projectPath)) = none ∧
    ((validateProjectPath emptyFS (jsTrim c8Item.projectPath)).isValid = false ∧
      containsSub ((validateProjectPath emptyFS (jsTrim c8Item.projectPath)).error.getD "")
        "does not exist" = true ∧
      prepare emptyFS c8Item = Except.error
        ("Invalid project path: " ++
          ("Directory does not exist: " ++ emptyFS.resolve (jsTrim c8Item.projectPath)))) :=
  ⟨by decide, by decide, rfl,
    c8_nonexistent_path_rejected emptyFS c8Item (by decide) (by decide) rfl⟩

/-- C9: for every collected event sequence with no assistant text content
and no result event, in particular the empty sequence and a sequence
holding only a system-init event, the structured-format normalization
emits a diagnostic payload with success false and a non-empty warning,
never a success-shaped payload. -/
theorem c9_degenerate_detection (pm ae : Bool) (messages : List SDKMessage)
    (h1 : hasAssistantContent messages = false)
    (h2 : findResult messages = none) :
    ∃ warn,
      (normalizePush "structured" pm ae messages
          = some (PushJson.emptyWarning warn false) ∨
        normalizePush "structured" pm ae messages
          = some (PushJson.noMeaningful warn messages.length false)) ∧
      warn ≠ "" := by
  cases messages with
  | nil => exact ⟨emptyWarningMsg, Or.inl rfl, by decide⟩
  | cons m rest =>
    refine ⟨noMeaningfulMsg (m :: rest).length, Or.inr ?_, noMeaningfulMsg_ne_empty _⟩
    unfold normalizePush
    have hlen : ((m :: rest).length == 0) = false := by simp
    rw [if_neg (by simp [hlen])]
    simp [h1, h2]

/-- C9 witness: the sequence holding only the system-init event yields
the diagnostic payload. -/
theorem c9_witness :
    hasAssistantContent [sysInitEvent] = false ∧
    findResult [sysInitEvent] = none ∧
    (∃ warn,
      (normalizePush "structured" false false [sysInitEvent]
          = some (PushJson.emptyWarning warn false) ∨
        normalizePush "structured" false false [sysInitEvent]
          = some (PushJson.noMeaningful warn [sysInitEvent].length false)) ∧
      warn ≠ "") :=
  ⟨by decide, rfl, c9_degenerate_detection false false [sysInitEvent] (by decide) rfl⟩

/-- C3, code bug: on the concrete stream whose result event carries a
working-directory error payload while an override is set, the mid-stream
check fires and the driver stops consuming early, discarding the later
event, but contrary to the claim and to the source comment at line 670 no
fallback attempt is issued: exactly one request is made and the truncated
first-attempt events proceed to normalization. -/
theorem c3_midstream_break_without_fallback :
    midStreamBreak true wdErrResultEvent = true ∧
    runDriver (some "/data/project") c3Behavior =
      { attemptCwds := [some "/data/project"]
        outcome := DriverOutcome.normalized [sysInitEvent, wdErrResultEvent] } :=
  ⟨by decide, by decide⟩

/-- C4: whenever the first attempt raises a working-directory-shaped
error with an override set and without an earlier mid-stream break, the
driver issues exactly one additional request, and that request has the
working-directory override removed, whatever the fallback stream then
does. -/
theorem c4_exactly_one_fallback (p : String) (beh : ItemBehavior)
    (evs : List SDKMessage) (errMsg : String)
    (hfirst : beh.first = StreamBehavior.throws evs errMsg)
    (hnobreak : firstBreaks true evs = false)
    (herr : isWorkingDirErrorMsg errMsg = true) :
    (runDriver (some p) beh).attemptCwds = [some p, none] := by
  cases beh with
  | mk first fallback =>
    simp only at hfirst
    subst hfirst
    cases fallback with
    | yields fevs => simp [runDriver, hnobreak, herr]
    | throws fevs ferr => simp [runDriver, hnobreak, herr]

/-- C4 witness: the concrete throwing first attempt triggers exactly the
two requests, the second one without the override. -/
theorem c4_witness :
    c4Behavior.first
      = StreamBehavior.throws [] "ENOENT: no such file or directory, chdir /bad/path" ∧
    firstBreaks true [] = false ∧
    isWorkingDirErrorMsg "ENOENT: no such file or directory, chdir /bad/path" = true ∧
    (runDriver (some "/bad/path") c4Behavior).attemptCwds = [some "/bad/path", none] :=
  ⟨rfl, rfl, by decide,
    c4_exactly_one_fallback "/bad/path" c4Behavior []
      "ENOENT: no such file or directory, chdir /bad/path" rfl rfl (by decide)⟩

/-- C5: whenever both the first attempt and the fallback attempt raise,
the error leaving the driver is the original first-attempt error, not the
fallback error. -/
theorem c5_original_error_propagates (p : String) (evs fevs : List SDKMessage)
    (errMsg ferrMsg : String)
    (hnobreak : firstBreaks true evs = false)
    (herr : isWorkingDirErrorMsg errMsg = true) :
    (runDriver (some p)
        { first := StreamBehavior.throws evs errMsg
          fallback := StreamBehavior.throws fevs ferrMsg }).outcome
      = DriverOutcome.raised errMsg := by
  simp [runDriver, hnobreak, herr]

/-- C5 witness: with distinct first and fallback error messages the
raised error is the first one. -/
theorem c5_witness :
    firstBreaks true [] = false ∧
    isWorkingDirErrorMsg "spawn EACCES: invalid working directory" = true ∧
    (runDriver (some "/p")
        { first := StreamBehavior.throws [] "spawn EACCES: invalid working directory"
          fallback := StreamBehavior.throws [] "model overloaded" }).outcome
      = DriverOutcome.raised "spawn EACCES: invalid working directory" :=
  ⟨rfl, by decide,
    c5_original_error_propagates "/p" [] []
      "spawn EACCES: invalid working directory" "model overloaded" rfl (by decide)⟩

/-- C6, code bug: on the concrete one-item batch whose first attempt
raises a working-directory error and whose fallback attempt streams to a
successful terminal result, the fallback succeeds but its messages never
reach the formatting code, so the batch output under continue-on-failure
holds zero outcomes for one input item, contradicting the one-outcome-
per-item contract. -/
theorem c6_fallback_success_drops_outcome :
    (runDriver c6Item.cwd c6Item.beh).outcome
      = DriverOutcome.fallbackSilent [sysInitEvent, successResultEvent] ∧
    runBatch true [c6Item] = Except.ok [] ∧
    ([] : List PushJson).length ≠ [c6Item].length :=
  ⟨by decide, rfl, by decide⟩

end ClaudeCodeNode
